import Mathlib

/-!
Verification development for the zkteco multi-device attendance service.

The definitions below are a shallow embedding of the Python sources:
- `src/unnamed/part_000` (`MultiDeviceLiveCaptureService`, `ZktecoWrapper`)
- `src/zkteco/services/zk_service.py` (`ZkService`)
- `src/zkteco/services/multi_device_service.py` (`MultiDeviceService`)

Payload bytes are modelled as `List Nat` (each element a byte value),
external protocol-driver calls as trace events, and exception outcomes as
booleans or `Except` values.
-/

namespace Zkteco

/-! ## Definitions -/

/-- Little-endian decoding of a byte list, as `struct.unpack` does for the
unsigned `<H` (2-byte) and `<I` (4-byte) fields of the record layouts. -/
def decodeLE : List Nat → Nat
  | [] => 0
  | b :: rest => b + 256 * decodeLE rest

/-- Lenient text decoding of a 24-byte identifier field, as
`(user_id.split(b'\x00')[0]).decode(errors='ignore')` in
`ZktecoWrapper.parse_user_data`: keep the prefix before the first null byte
and drop bytes that do not decode (modelled as bytes ≥ 128). -/
def decodeText (bs : List Nat) : String :=
  String.mk ((bs.takeWhile (· ≠ 0)).filterMap
    (fun b => if b < 128 then some (Char.ofNat b) else none))

/-- `ZktecoWrapper.parse_user_data` (part_000 lines 397-432), as observable
by its caller: it returns the parsed identifier string, or `none` when no
length branch matches (then `user_id` stays `None`, `None.split` raises
`AttributeError`, and the handler returns `None`).  The source's statements
`data = data[10:]` (likewise 12/14/32/36/37/52) rebind a variable local to
`parse_user_data`; the caller's buffer is not affected, so the identifier is
the function's only output. -/
def parse_user_data (data : List Nat) : Option String :=
  let n := data.length
  if n = 10 then some (toString (decodeLE (data.take 2)))
  else if n = 12 then some (toString (decodeLE (data.take 4)))
  else if n = 14 then some (toString (decodeLE (data.take 2)))
  else if n = 32 ∨ n = 36 ∨ n = 37 ∨ 52 ≤ n then
    some (decodeText (data.take 24))
  else none

/-- One iteration of the inner record loop of `ZktecoWrapper.live_capture`
(part_000 lines 373-376):

    while len(data) >= 10:
        user_id = self.parse_user_data(data)
        if user_id:
            self.send_attendance_request(user_id)

The iteration emits the identifier when it is truthy (not `None` and not the
empty string) and returns the payload buffer as the loop body leaves it:
unchanged, because the body never rebinds `data`. -/
def liveInnerStep (data : List Nat) : List String × List Nat :=
  match parse_user_data data with
  | some s => (if s = "" then [] else [s], data)
  | none => ([], data)

/-- The inner record loop of `live_capture`, run for at most `fuel`
iterations: `some emitted` when the loop condition `len(data) >= 10`
becomes false within `fuel` iterations, `none` when the loop is still
running after `fuel` iterations. -/
def liveInnerLoop : Nat → List Nat → Option (List String)
  | 0, data => if data.length < 10 then some [] else none
  | fuel + 1, data =>
    if data.length < 10 then some []
    else
      let step := liveInnerStep data
      match liveInnerLoop fuel step.2 with
      | some rest => some (step.1 ++ rest)
      | none => none

/-- A payload holding a single 10-byte record: user id 17 as a 2-byte
little-endian field, status, punch, and a 6-byte time field. -/
def oneRecordPayload : List Nat := [17, 0, 0, 0, 1, 2, 3, 4, 5, 6]

/-- A 20-byte payload: two consecutive 10-byte records (ids 17 and 23).
Length 20 matches no branch of `parse_user_data`. -/
def twoRecordPayload : List Nat :=
  [17, 0, 0, 0, 1, 2, 3, 4, 5, 6, 23, 0, 0, 0, 1, 2, 3, 4, 5, 6]

/-- `MultiDeviceLiveCaptureService.start` together with
`start_device_capture` (part_000 lines 127-190).  `devices` is the list of
configured device ids; `initOk i` tells whether device `i`'s
`start_device_capture` returned `True` (its `ZktecoWrapper` was built with a
non-null `zk` handle and installed in `device_wrappers`).  `start` returns
`False` immediately when no devices are configured; otherwise each device is
started, failures are only logged, and `start` returns `True`.  The result
is the return value paired with the final `device_wrappers` registry. -/
def startService (devices : List Nat) (initOk : Nat → Bool) : Bool × List Nat :=
  if devices.isEmpty then (false, [])
  else (true, devices.filter initOk)

/-- A protocol-driver call issued by `ZkService`, as a trace event. -/
inductive Call where
  | connect
  | disable
  | enable
  | proto (name : String)
deriving DecidableEq, Repr

/-- The common shape of the guarded `ZkService` operations `create_user`,
`get_all_users`, `delete_user`, `enroll_user`, `delete_user_template`,
`get_user_template`, `get_attendance`, `clear_attendance`, `get_templates`
(zk_service.py):

    try:
        self._ensure_connection_and_disable()
        self.zk.<protocol call>(...)
    except Exception as e: ...; raise
    finally:
        self.enable_device()

`_ensure_connection_and_disable` (lines 150-163) calls `connect` and raises
when it fails, then calls `disable_device` (a failure there is tolerated and
only logged).  `connectOk` is the outcome of the connect, `opOk` whether the
protocol call returns without raising.  The result is the emitted call trace
paired with whether the method returned normally. -/
def guardedOp (name : String) (connectOk opOk : Bool) : List Call × Bool :=
  if connectOk then
    ([Call.connect, Call.disable, Call.proto name, Call.enable], opOk)
  else
    ([Call.connect, Call.enable], false)

/-- The call trace of `ZkService.get_device_info` (zk_service.py lines
486-548): `self.connect()` (which catches its own errors), the
`is_connected` ping used for `connection_status`, then each metadata getter
inside its own `try`, so every call below is attempted.  No `disable_device`
and no `enable_device` call appears anywhere in the method. -/
def get_device_info_trace : List Call :=
  [Call.connect, Call.proto "test_ping", Call.proto "get_device_name",
   Call.proto "get_firmware_version", Call.proto "get_platform",
   Call.proto "get_time", Call.proto "get_users", Call.proto "get_templates"]

/-- `ZkService.set_user_template` (zk_service.py lines 415-484).
Parameters: `connectOk` the outcome of `_ensure_connection_and_disable`'s
connect; `templateSize = len(template_bytes)`; `userExists` whether
`str(user_id)` is among the device's users; `createOk` whether the
auto-created placeholder user shows up in the refreshed user list.  The
size check `if not (300 <= template_size <= 2000)` raises `ValueError`
before any further protocol call; `finally` always calls `enable_device`.
The result is the call trace paired with the method's outcome. -/
def set_user_template (connectOk : Bool) (templateSize : Nat)
    (userExists createOk : Bool) : List Call × Except String Bool :=
  if !connectOk then
    ([Call.connect, Call.enable], Except.error "Could not connect to device")
  else if ¬(300 ≤ templateSize ∧ templateSize ≤ 2000) then
    ([Call.connect, Call.disable, Call.enable],
      Except.error "Invalid template size")
  else if userExists then
    ([Call.connect, Call.disable, Call.proto "get_users",
      Call.proto "HR_save_usertemplates", Call.enable], Except.ok true)
  else if createOk then
    ([Call.connect, Call.disable, Call.proto "get_users",
      Call.proto "set_user", Call.proto "get_users",
      Call.proto "HR_save_usertemplates", Call.enable], Except.ok true)
  else
    ([Call.connect, Call.disable, Call.proto "get_users",
      Call.proto "set_user", Call.proto "get_users", Call.enable],
      Except.error "User not found on device after creation attempt")

/-- A per-device entry of the result mapping built by
`MultiDeviceService.execute_on_all_devices` / `execute_on_selected_devices`:
either `{"success": True, "data": ..., "device_name": ...}` or
`{"success": False, "error": str(e), "device_name": ...}`. -/
inductive OpResult (α : Type) where
  | success (data : α) (deviceName : String)
  | failure (error : String) (deviceName : String)
deriving DecidableEq, Repr

/-- `MultiDeviceService.execute_on_all_devices` (multi_device_service.py
lines 87-115).  `devices` is the registry `self.devices` with the
configured names, `outcome i` the result of `_safe_execute` on device `i`
(`Except.error` when it raises; `str(e)` is the error string).  Each
device's future yields exactly one entry keyed by its id; `as_completed`
order is irrelevant to the mapping, so entries are listed in registry
order. -/
def execute_on_all_devices {α : Type} (devices : List (Nat × String))
    (outcome : Nat → Except String α) : List (Nat × OpResult α) :=
  devices.map fun d =>
    (d.1, match outcome d.1 with
      | Except.ok v => OpResult.success v d.2
      | Except.error e => OpResult.failure e d.2)

/-- `MultiDeviceService.execute_on_selected_devices` (multi_device_service.py
lines 121-146): tasks are submitted only `for device_id in device_ids if
device_id in self.devices`, so unregistered ids get no future and no result
entry. -/
def execute_on_selected_devices {α : Type} (devices : List (Nat × String))
    (deviceIds : List Nat) (outcome : Nat → Except String α) :
    List (Nat × OpResult α) :=
  (deviceIds.filter fun i => (devices.lookup i).isSome).map fun i =>
    (i, match outcome i with
      | Except.ok v => OpResult.success v ((devices.lookup i).getD "")
      | Except.error e => OpResult.failure e ((devices.lookup i).getD ""))

/-- A five-device registry, ids 1 to 5. -/
def fiveDevices : List (Nat × String) :=
  [(1, "Device 1"), (2, "Device 2"), (3, "Device 3"),
   (4, "Device 4"), (5, "Device 5")]

/-- An operation outcome that raises on device 3 only. -/
def failOnDevice3 : Nat → Except String Nat :=
  fun i => if i = 3 then Except.error "device offline" else Except.ok i

/-- A registry with exactly devices 1 and 2 registered. -/
def twoDeviceRegistry : List (Nat × String) := [(1, "Device 1"), (2, "Device 2")]

/-- `ZktecoWrapper.is_healthy` (part_000 lines 308-324).  Inputs: whether
`self.zk` is non-null, the driver's `is_connect` flag, whether
`live_capture_thread` is non-null (`threadStarted`) and alive
(`threadAlive`), the current time and `last_ping_time` in seconds,
`ping_interval`, and the outcome of `self.zk.helper.test_ping()`
(`Except.error` when the probe raises; the surrounding `try` turns any
exception into `False`). -/
def is_healthy (hasZk isConnect threadStarted threadAlive : Bool)
    (now lastPing pingInterval : Nat) (testPing : Except Unit Bool) : Bool :=
  if !hasZk || !isConnect then false
  else if !threadStarted || !threadAlive then false
  else if pingInterval * 3 < now - lastPing then false
  else
    match testPing with
    | Except.ok b => b
    | Except.error _ => false

/-- The retry loop of `ZktecoWrapper.connect` (part_000 lines 471-501),
with the stop event not set (the scenario of the spec's property):

    while retry_count < max_retries:
        try: self.zk.connect(); ...; return True
        except:
            retry_count += 1
            if retry_count < max_retries:
                delay = min(base_delay * retry_count, 60); wait(delay)
            else: break
    return False

`connectOk n` is whether the `n`-th connect attempt (0-based) succeeds.
State: remaining fuel (the loop runs at most `maxRetries` iterations, since
`retry_count` grows by one per iteration), `retry_count`, attempts made so
far, and the list of sleep durations performed so far.  Returns the boolean
result, the total number of connect attempts, and the sleep durations. -/
def connectGo (connectOk : Nat → Bool) (maxRetries baseDelay : Nat) :
    Nat → Nat → Nat → List Nat → Bool × Nat × List Nat
  | 0, _, attempts, sleeps => (false, attempts, sleeps)
  | fuel + 1, retryCount, attempts, sleeps =>
    if retryCount < maxRetries then
      if connectOk attempts then (true, attempts + 1, sleeps)
      else if retryCount + 1 < maxRetries then
        connectGo connectOk maxRetries baseDelay fuel (retryCount + 1)
          (attempts + 1) (sleeps ++ [min (baseDelay * (retryCount + 1)) 60])
      else (false, attempts + 1, sleeps)
    else (false, attempts, sleeps)

/-- `ZktecoWrapper.connect` (part_000 lines 463-501): fast path returning
immediately when already connected and a ping succeeds, otherwise the retry
loop with `retry_count = 0`. -/
def connect (alreadyConnected pingOk : Bool) (connectOk : Nat → Bool)
    (maxRetries baseDelay : Nat) : Bool × Nat × List Nat :=
  if alreadyConnected && pingOk then (true, 0, [])
  else connectGo connectOk maxRetries baseDelay maxRetries 0 0 []

/-- `ZktecoWrapper.send_attendance_request` (part_000 lines 434-461), as
the list of webhook POSTs it performs (url, member id, device id, device
name).  The guard `if self.stop_event.is_set(): return` comes first; a
missing `BACKEND_URL` is a logged no-op; otherwise exactly one POST is
issued (HTTP errors are caught afterwards, so the request itself still
happens). -/
def send_attendance_request (stopSet : Bool) (backendUrl : Option String)
    (memberId : String) (deviceId : Nat) (deviceName : String) :
    List (String × String × Nat × String) :=
  if stopSet then []
  else
    match backendUrl with
    | none => []
    | some url => [(url ++ "/check-in", memberId, deviceId, deviceName)]

/-! ## Shared lemmas -/

/-- One iteration of the inner record loop hands the buffer on unchanged. -/
theorem liveInnerStep_snd (data : List Nat) : (liveInnerStep data).2 = data := by
  unfold liveInnerStep
  cases parse_user_data data <;> simp

/-- The inner record loop never terminates once at least 10 bytes remain:
each iteration hands the unchanged buffer to the next, so the loop
condition stays true for every fuel bound. -/
theorem liveInnerLoop_stuck (fuel : Nat) (data : List Nat)
    (h : 10 ≤ data.length) : liveInnerLoop fuel data = none := by
  induction fuel with
  | zero => simp [liveInnerLoop, Nat.not_lt.mpr h]
  | succ n ih =>
    simp only [liveInnerLoop, Nat.not_lt.mpr h, if_false]
    rw [liveInnerStep_snd, ih]

/-- In a call trace that opens with `connect` followed by `disable`, every
protocol call is preceded by the `disable` call: any index holding a
`proto` event lies at position 2 or later, so the prefix before it contains
the `disable`. -/
theorem disable_before_proto (tr : List Call)
    (htr : tr.take 2 = [Call.connect, Call.disable]) :
    ∀ i name, tr[i]? = some (Call.proto name) → Call.disable ∈ tr.take i := by
  match tr with
  | [] => simp at htr
  | [a] => simp at htr
  | a :: b :: rest =>
    simp only [List.take, List.cons.injEq, and_true] at htr
    obtain ⟨rfl, rfl⟩ := htr
    intro i name heq
    match i with
    | 0 => simp at heq
    | 1 => simp at heq
    | n + 2 => simp [List.take]

end Zkteco

/-! ## Claim theorems -/

/-- C1: the claim that each iteration of the record-parsing step consumes
the documented fixed number of bytes from the payload buffer, so repeated
parsing visits each record exactly once, fails on the code.  On a payload
holding a single 10-byte record with id 17, one iteration does yield the
documented identifier `"17"`, but it consumes zero bytes (the slicing in
`parse_user_data` only rebinds a local variable), so the loop re-parses the
same record forever and never completes for any fuel bound. -/
theorem c1_record_parsing_never_consumes :
    (Zkteco.liveInnerStep Zkteco.oneRecordPayload).1 = ["17"] ∧
    (Zkteco.liveInnerStep Zkteco.oneRecordPayload).2 = Zkteco.oneRecordPayload ∧
    ∀ fuel, Zkteco.liveInnerLoop fuel Zkteco.oneRecordPayload = none := by
  refine ⟨by decide, by decide, fun fuel => ?_⟩
  exact Zkteco.liveInnerLoop_stuck fuel _ (by decide)

/-- C2: the claim that the inner parse-while-at-least-10-bytes-remain loop
terminates on every non-empty payload fails on the code.  A 20-byte payload
(two 10-byte records — a length matching no branch) keeps the loop running
for every fuel bound, since the buffer is never consumed; only payloads
shorter than 10 bytes are skipped as the claimed no-op. -/
theorem c2_inner_loop_divergence :
    (∀ fuel, Zkteco.liveInnerLoop fuel Zkteco.twoRecordPayload = none) ∧
    Zkteco.liveInnerLoop 0 [1, 2, 3, 4, 5] = some [] := by
  refine ⟨fun fuel => Zkteco.liveInnerLoop_stuck fuel _ (by decide), by decide⟩

/-- C3 counterexample: with one configured device whose session
initialization fails, `start` returns `True` although the session registry
ends up empty — refuting "reports overall success only if the session
registry ends up non-empty". -/
theorem c3_start_success_with_empty_registry :
    Zkteco.startService [1] (fun _ => false) = (true, []) := by rfl

/-- C3 (amended): `start` fails fast exactly when zero devices are
configured, and otherwise reports overall success unconditionally — even
when every per-device initialization failed and the registry is empty;
individual failures are logged but never abort the start. -/
theorem c3_start_result_is_nonempty_config :
    ∀ (devices : List Nat) (initOk : Nat → Bool),
      (Zkteco.startService devices initOk).1 = !devices.isEmpty := by
  intro devices initOk
  cases h : devices.isEmpty <;> simp [Zkteco.startService, h]

/-- C4 counterexample: the device-metadata query `get_device_info` issues
neither a `disable_device` nor an `enable_device` call on any path —
refuting the claim for that operation. -/
theorem c4_get_device_info_unguarded :
    Zkteco.Call.disable ∉ Zkteco.get_device_info_trace ∧
    Zkteco.Call.enable ∉ Zkteco.get_device_info_trace := by decide

/-- C4 (amended): for the guarded DeviceLink operations (create/get/delete
user, enroll, template get/set/delete, attendance fetch), the device is
disabled before the protocol call and the enable call runs on every exit
path — success, protocol failure, and connect failure alike; but the
device-metadata query `get_device_info` performs neither call.  The first
conjunct covers the nine single-call guarded operations; the second covers
`set_user_template`, with its extra validation, lookup, auto-create and
template-write calls: on every path its trace ends with the `enable` call
and every protocol call in it is preceded by the `disable` call. -/
theorem c4_guarded_ops_disable_then_enable :
    (∀ (name : String) (connectOk opOk : Bool),
      ((Zkteco.guardedOp name connectOk opOk).1).getLast? = some Zkteco.Call.enable ∧
      ∀ i, ((Zkteco.guardedOp name connectOk opOk).1)[i]? =
          some (Zkteco.Call.proto name) →
        Zkteco.Call.disable ∈ ((Zkteco.guardedOp name connectOk opOk).1).take i) ∧
    (∀ (connectOk : Bool) (templateSize : Nat) (userExists createOk : Bool),
      ((Zkteco.set_user_template connectOk templateSize userExists
          createOk).1).getLast? = some Zkteco.Call.enable ∧
      ∀ i name,
        ((Zkteco.set_user_template connectOk templateSize userExists
            createOk).1)[i]? = some (Zkteco.Call.proto name) →
        Zkteco.Call.disable ∈ ((Zkteco.set_user_template connectOk templateSize
          userExists createOk).1).take i) := by
  constructor
  · intro name connectOk opOk
    cases connectOk
    · refine ⟨rfl, fun i heq => ?_⟩
      rcases i with _ | _ | i <;> simp [Zkteco.guardedOp] at heq
    · refine ⟨rfl, fun i heq => ?_⟩
      rcases i with _ | _ | _ | _ | i
      · simp [Zkteco.guardedOp] at heq
      · simp [Zkteco.guardedOp] at heq
      · simp [Zkteco.guardedOp]
      · simp [Zkteco.guardedOp] at heq
      · simp [Zkteco.guardedOp] at heq
  · intro connectOk templateSize userExists createOk
    cases connectOk
    · refine ⟨rfl, fun i name heq => ?_⟩
      rcases i with _ | _ | i <;> simp [Zkteco.set_user_template] at heq
    · by_cases hsize : 300 ≤ templateSize ∧ templateSize ≤ 2000
      · cases userExists
        · cases createOk
          · have htr : (Zkteco.set_user_template true templateSize false false).1 =
                [Zkteco.Call.connect, Zkteco.Call.disable,
                 Zkteco.Call.proto "get_users", Zkteco.Call.proto "set_user",
                 Zkteco.Call.proto "get_users", Zkteco.Call.enable] := by
              simp [Zkteco.set_user_template, hsize]
            rw [htr]
            exact ⟨rfl, Zkteco.disable_before_proto _ rfl⟩
          · have htr : (Zkteco.set_user_template true templateSize false true).1 =
                [Zkteco.Call.connect, Zkteco.Call.disable,
                 Zkteco.Call.proto "get_users", Zkteco.Call.proto "set_user",
                 Zkteco.Call.proto "get_users",
                 Zkteco.Call.proto "HR_save_usertemplates", Zkteco.Call.enable] := by
              simp [Zkteco.set_user_template, hsize]
            rw [htr]
            exact ⟨rfl, Zkteco.disable_before_proto _ rfl⟩
        · have htr : ∀ createOk,
              (Zkteco.set_user_template true templateSize true createOk).1 =
                [Zkteco.Call.connect, Zkteco.Call.disable,
                 Zkteco.Call.proto "get_users",
                 Zkteco.Call.proto "HR_save_usertemplates", Zkteco.Call.enable] := by
            intro createOk
            simp [Zkteco.set_user_template, hsize]
          rw [htr]
          exact ⟨rfl, Zkteco.disable_before_proto _ rfl⟩
      · have htr : ∀ userExists createOk,
            (Zkteco.set_user_template true templateSize userExists createOk).1 =
              [Zkteco.Call.connect, Zkteco.Call.disable, Zkteco.Call.enable] := by
          intro userExists createOk
          simp [Zkteco.set_user_template, hsize]
        rw [htr]
        exact ⟨rfl, Zkteco.disable_before_proto _ rfl⟩

/-- C4 witness: the theorem applied to the `set_user` single-call operation
and to `set_user_template` with a valid 300-byte template and an existing
user, each at the index of a protocol call. -/
theorem c4_guarded_ops_disable_then_enable_witness :
    Zkteco.Call.disable ∈ ((Zkteco.guardedOp "set_user" true true).1).take 2 ∧
    Zkteco.Call.disable ∈
      ((Zkteco.set_user_template true 300 true true).1).take 3 :=
  ⟨(c4_guarded_ops_disable_then_enable.1 "set_user" true true).2 2 (by decide),
   (c4_guarded_ops_disable_then_enable.2 true 300 true true).2 3
     "HR_save_usertemplates" (by decide)⟩

/-- C5: `set_user_template` rejects template byte lengths 299 and 2001 with
a caller-visible validation error and never issues the template-write call
`HR_save_usertemplates`, while lengths 300 and 2000 are accepted: the user
is looked up (`get_users`) or auto-created and the template write is
issued. -/
theorem c5_template_size_boundary :
    ∀ userExists createOk : Bool,
      ((Zkteco.set_user_template true 299 userExists createOk).2 =
          Except.error "Invalid template size" ∧
        Zkteco.Call.proto "HR_save_usertemplates" ∉
          (Zkteco.set_user_template true 299 userExists createOk).1) ∧
      ((Zkteco.set_user_template true 2001 userExists createOk).2 =
          Except.error "Invalid template size" ∧
        Zkteco.Call.proto "HR_save_usertemplates" ∉
          (Zkteco.set_user_template true 2001 userExists createOk).1) ∧
      ((Zkteco.set_user_template true 300 userExists true).2 = Except.ok true ∧
        Zkteco.Call.proto "get_users" ∈
          (Zkteco.set_user_template true 300 userExists true).1 ∧
        Zkteco.Call.proto "HR_save_usertemplates" ∈
          (Zkteco.set_user_template true 300 userExists true).1) ∧
      ((Zkteco.set_user_template true 2000 userExists true).2 = Except.ok true ∧
        Zkteco.Call.proto "HR_save_usertemplates" ∈
          (Zkteco.set_user_template true 2000 userExists true).1) := by
  intro userExists createOk
  cases userExists <;> cases createOk <;>
    exact ⟨⟨rfl, by decide⟩, ⟨rfl, by decide⟩, ⟨rfl, by decide, by decide⟩,
      rfl, by decide⟩

/-- C6: dispatching one operation concurrently to 5 registered devices
where the operation raises on device 3 only yields a result map with 5
entries: success entries for devices 1, 2, 4, 5 and exactly one failure
entry keyed by device 3, carrying its error string and name. -/
theorem c6_failure_isolated_to_device3 :
    Zkteco.execute_on_all_devices Zkteco.fiveDevices Zkteco.failOnDevice3 =
      [(1, Zkteco.OpResult.success 1 "Device 1"),
       (2, Zkteco.OpResult.success 2 "Device 2"),
       (3, Zkteco.OpResult.failure "device offline" "Device 3"),
       (4, Zkteco.OpResult.success 4 "Device 4"),
       (5, Zkteco.OpResult.success 5 "Device 5")] := by rfl

/-- C7: selected dispatch over ids [1, 2, 999] with exactly devices 1 and 2
registered returns a result map whose key set is exactly {1, 2}, whatever
the per-device outcomes: the unknown id 999 is silently omitted, with
neither an error entry nor a batch-level failure. -/
theorem c7_unknown_id_silently_omitted :
    ∀ outcome : Nat → Except String (List Nat),
      (Zkteco.execute_on_selected_devices Zkteco.twoDeviceRegistry [1, 2, 999]
          outcome).map Prod.fst = [1, 2] := by
  intro outcome
  rfl

/-- C8: `is_healthy` returns `false` whenever the live-capture worker
thread is not alive, or was never started, for every state of the other
health inputs — even with an active connection handle and a recent ping. -/
theorem c8_unhealthy_without_live_thread :
    ∀ (hasZk isConnect threadStarted threadAlive : Bool)
      (now lastPing pingInterval : Nat) (testPing : Except Unit Bool),
      Zkteco.is_healthy hasZk isConnect threadStarted false
        now lastPing pingInterval testPing = false ∧
      Zkteco.is_healthy hasZk isConnect false threadAlive
        now lastPing pingInterval testPing = false := by
  intro hasZk isConnect threadStarted threadAlive now lastPing pingInterval testPing
  cases hasZk <;> cases isConnect <;> cases threadStarted <;>
    simp [Zkteco.is_healthy]

/-- C9: `connect` with maxRetries = 3 and baseDelay = 1 against a driver
whose connect call always fails makes exactly 3 attempts and sleeps
exactly after attempts 1 and 2 (durations min(1·1, 60) = 1 and
min(1·2, 60) = 2, total 3 seconds, no sleep after the final attempt)
before returning `false`. -/
theorem c9_connect_three_attempts_bounded_sleep :
    Zkteco.connect false false (fun _ => false) 3 1 = (false, 3, [1, 2]) := by rfl

/-- C10: once the per-device stop event is set, `send_attendance_request`
performs no webhook POST, whatever the backend configuration and event
passed to it. -/
theorem c10_no_post_after_stop :
    ∀ (backendUrl : Option String) (memberId : String) (deviceId : Nat)
      (deviceName : String),
      Zkteco.send_attendance_request true backendUrl memberId deviceId
        deviceName = [] := by
  intro backendUrl memberId deviceId deviceName
  rfl
